import Mathlib

/-!
Verification development for the openHAB persistence export wizard.

The repository is a browser-resident export tool consisting of a library file
(`formatLocalISO`, `escapeCSVField`, `downloadFile`) and an application file
(`app.js`) containing the form-submit handler and the export pipeline
(`handleDownload` with the nested `fetchItemUnit` and `fetchPersistenceData`,
followed by CSV/JSON serialization).

JavaScript strings are modelled as `List Char`; machine numbers are `Nat`/`Int`
(all arithmetic in the source stays far below any overflow boundary).  Network
effects are modelled by passing the responses of the two backend endpoints in
explicitly as data, and the observable effects of the handlers (displayed
errors, issued requests, the file handed to the download sink) are returned as
record fields.
-/

namespace Openhab

/-- Character for a single decimal digit value below ten. -/
def digitChar (n : Nat) : Char := Char.ofNat (48 + n)

/-- Helper for decimal rendering, structurally recursive on a fuel bound. -/
def natDigitsAux : Nat → Nat → List Char
  | 0, _ => []
  | fuel + 1, n =>
    if n < 10 then [digitChar n] else natDigitsAux fuel (n / 10) ++ [digitChar (n % 10)]

/-- Decimal rendering of a natural number, as JavaScript number-to-string
produces for non-negative integers. -/
def natDigits (n : Nat) : List Char := natDigitsAux (n + 1) n

/-- Decimal rendering of an integer, modelling the template interpolation of a
JavaScript integer-valued number. -/
def intStr (i : Int) : List Char :=
  if i < 0 then '-' :: natDigits i.natAbs else natDigits i.natAbs

/-- The `pad` helper of the library file: `(n) => (n < 10 ? "0" + n : "" + n)`.
It is only ever applied to non-negative numbers. -/
def pad (n : Nat) : List Char :=
  if n < 10 then '0' :: natDigits n else natDigits n

/-- Left-pad a decimal rendering with zeros to a fixed width (used by the model
of the host function `Date.prototype.toISOString`). -/
def padTo (w n : Nat) : List Char :=
  List.replicate (w - (natDigits n).length) '0' ++ natDigits n

/-- Days since the Unix epoch of a proleptic Gregorian calendar date
(year, month 1-12, day 1-31); the standard civil-from-days inverse companion. -/
def daysFromCivil (y : Int) (m d : Nat) : Int :=
  let y2 : Int := if m ≤ 2 then y - 1 else y
  let era : Int := Int.fdiv y2 400
  let yoe : Int := y2 - era * 400
  let mp : Int := (Int.ofNat m + 9) % 12
  let doy : Int := Int.fdiv (153 * mp + 2) 5 + Int.ofNat d - 1
  let doe : Int := yoe * 365 + Int.fdiv yoe 4 - Int.fdiv yoe 100 + doy
  era * 146097 + doe - 719468

/-- Proleptic Gregorian calendar date (year, month 1-12, day 1-31) of a count
of days since the Unix epoch. -/
def civilFromDays (z0 : Int) : Int × Nat × Nat :=
  let z := z0 + 719468
  let era := Int.fdiv z 146097
  let doe := z - era * 146097
  let yoe := Int.fdiv (doe - Int.fdiv doe 1460 + Int.fdiv doe 36524 - Int.fdiv doe 146096) 365
  let y := yoe + era * 400
  let doy := doe - (365 * yoe + Int.fdiv yoe 4 - Int.fdiv yoe 100)
  let mp := Int.fdiv (5 * doy + 2) 153
  let d := doy - Int.fdiv (153 * mp + 2) 5 + 1
  let m := if mp < 10 then mp + 3 else mp - 9
  (if m ≤ 2 then y + 1 else y, m.toNat, d.toNat)

/-- A JavaScript `Date` as observed through its local-time getters: the exact
inputs read by `formatLocalISO`.  `month` is `getMonth()` (0-11), `date` is
`getDate()` (1-31), and `timezoneOffset` is `getTimezoneOffset()` (minutes west
of UTC, so negated inside `formatLocalISO` to obtain minutes east). -/
structure JSDate where
  fullYear : Int
  month : Nat
  date : Nat
  hours : Nat
  minutes : Nat
  seconds : Nat
  milliseconds : Nat
  timezoneOffset : Int
  deriving DecidableEq, Repr

/-- The instant (milliseconds since the Unix epoch) denoted by a `JSDate`:
local civil fields shifted back to UTC by the timezone offset. -/
def instantOfJSDate (d : JSDate) : Int :=
  daysFromCivil d.fullYear (d.month + 1) d.date * 86400000
    + d.hours * 3600000 + d.minutes * 60000 + d.seconds * 1000
    + d.milliseconds + d.timezoneOffset * 60000

/-- The `formatLocalISO` function of the library file.  It renders the local
getters of the date, zero-padding each two-digit field via `pad`, leaving the
year unpadded, and appends the local UTC offset with sign `+` for zero or
positive minutes east. -/
def formatLocalISO (d : JSDate) : List Char :=
  let year := intStr d.fullYear
  let month := pad (d.month + 1)
  let day := pad d.date
  let hours := pad d.hours
  let minutes := pad d.minutes
  let seconds := pad d.seconds
  let tzOffsetMin : Int := -d.timezoneOffset
  let sign := if 0 ≤ tzOffsetMin then '+' else '-'
  let absMin := tzOffsetMin.natAbs
  let tzHours := pad (absMin / 60)
  let tzMins := pad (absMin % 60)
  year ++ '-' :: month ++ '-' :: day ++ 'T' :: hours ++ ':' :: minutes
    ++ ':' :: seconds ++ sign :: tzHours ++ ':' :: tzMins

/-- A JavaScript value passed to `escapeCSVField`: the function first tests for
`null` and `undefined` and otherwise works on the string. -/
inductive JSStr where
  | null
  | undefined
  | str (s : List Char)
  deriving DecidableEq, Repr

/-- The global-replace `str.replace(/"/g, '""')`: every double quote doubled. -/
def doubleQuotes : List Char → List Char
  | [] => []
  | c :: rest => if c = '"' then '"' :: '"' :: doubleQuotes rest else c :: doubleQuotes rest

/-- The per-character test of the regular expression the source builds as
`[${delimiter}"\r\n]`, under ECMAScript semantics.  For an ordinary delimiter
the class matches the delimiter itself plus quote, carriage return and line
feed.  Three delimiters are not spliced in literally: a backslash escapes the
following quote, so the class degenerates to quote/CR/LF and the delimiter
itself is not matched; a caret in first position negates the class, which then
matches every character except quote/CR/LF; a closing bracket closes the class
immediately, leaving the empty class `[]` followed by the literal atoms
`"`, CR, LF, `]` -- a pattern that can never match at any position, so the
whole test is constantly false (modelled as a per-character test that matches
no character). -/
def regexClassTest (delimiter c : Char) : Bool :=
  if delimiter = '\\' then c = '"' || c = '\r' || c = '\n'
  else if delimiter = '^' then !(c = '"' || c = '\r' || c = '\n')
  else if delimiter = ']' then false
  else c = delimiter || c = '"' || c = '\r' || c = '\n'

/-- The `escapeCSVField` function of the library file: `null`/`undefined` map
to the empty string; a string is wrapped in double quotes with embedded quotes
doubled exactly when the constructed regular expression tests true on it. -/
def escapeCSVField (s : JSStr) (delimiter : Char := ',') : List Char :=
  match s with
  | .null => []
  | .undefined => []
  | .str str =>
    let needsQuotes := str.any fun c => regexClassTest delimiter c
    if needsQuotes then '"' :: (doubleQuotes str ++ ['"']) else str

/-- Whether a character terminates an unquoted RFC 4180 field content for a
given delimiter: the delimiter itself, a double quote, or a CR/LF. -/
def isFieldSpecial (delimiter c : Char) : Bool :=
  c = delimiter || c = '"' || c = '\r' || c = '\n'

/-- Conformant RFC 4180 parse of the content following the opening quote of a
quoted field: a doubled quote stands for one literal quote, a single quote
closes the field and must end the input (we parse exactly one field), and any
other character is literal. -/
def parseQuotedRest : List Char → Option (List Char)
  | [] => none
  | c :: rest =>
    if c = '"' then
      match rest with
      | [] => some []
      | c2 :: rest2 =>
        if c2 = '"' then (parseQuotedRest rest2).map (fun t => '"' :: t) else none
    else (parseQuotedRest rest).map (fun t => c :: t)

/-- Conformant RFC 4180 parse of one complete field with a configurable
delimiter: a field starting with a double quote is a quoted field; otherwise
the whole input is the field and may not contain the delimiter, a quote, or a
CR/LF. -/
def parseCSVField (delimiter : Char) (s : List Char) : Option (List Char) :=
  match s with
  | [] => some []
  | c :: rest =>
    if c = '"' then parseQuotedRest rest
    else if (c :: rest).any (isFieldSpecial delimiter) then none else some (c :: rest)

/-- Numeric value of a decimal digit character. -/
def charVal (c : Char) : Nat := c.toNat - 48

/-- The broken-down result of parsing a `formatLocalISO`-shaped string:
calendar fields plus the offset in minutes east of UTC. -/
structure ParsedISO where
  year : Nat
  month : Nat
  day : Nat
  hour : Nat
  minute : Nat
  second : Nat
  offsetEastMin : Int
  deriving DecidableEq, Repr

/-- Fixed-width match of the documented output pattern of `formatLocalISO`,
transcribing the regular expression
`^\d\x7b4\x7d-\d\x7b2\x7d-\d\x7b2\x7dT\d\x7b2\x7d:\d\x7b2\x7d:\d\x7b2\x7d[+-]\d\x7b2\x7d:\d\x7b2\x7d$`. -/
def matchesLocalISOPattern : List Char → Bool
  | [y1, y2, y3, y4, s1, a1, a2, s2, b1, b2, tc, h1, h2, c1, n1, n2, c2, e1, e2,
     sg, o1, o2, c3, q1, q2] =>
    y1.isDigit && y2.isDigit && y3.isDigit && y4.isDigit && s1 == '-'
      && a1.isDigit && a2.isDigit && s2 == '-' && b1.isDigit && b2.isDigit
      && tc == 'T' && h1.isDigit && h2.isDigit && c1 == ':' && n1.isDigit
      && n2.isDigit && c2 == ':' && e1.isDigit && e2.isDigit
      && (sg == '+' || sg == '-') && o1.isDigit && o2.isDigit && c3 == ':'
      && q1.isDigit && q2.isDigit
  | _ => false

/-- Parse a string of the exact `formatLocalISO` shape back into its calendar
fields and offset; `none` when the string does not have the documented shape. -/
def parseLocalISO : List Char → Option ParsedISO
  | [y1, y2, y3, y4, s1, a1, a2, s2, b1, b2, tc, h1, h2, c1, n1, n2, c2, e1, e2,
     sg, o1, o2, c3, q1, q2] =>
    if matchesLocalISOPattern [y1, y2, y3, y4, s1, a1, a2, s2, b1, b2, tc, h1, h2,
        c1, n1, n2, c2, e1, e2, sg, o1, o2, c3, q1, q2] then
      let absMin : Int :=
        Int.ofNat (60 * (10 * charVal o1 + charVal o2) + (10 * charVal q1 + charVal q2))
      some
        { year := 1000 * charVal y1 + 100 * charVal y2 + 10 * charVal y3 + charVal y4
          month := 10 * charVal a1 + charVal a2
          day := 10 * charVal b1 + charVal b2
          hour := 10 * charVal h1 + charVal h2
          minute := 10 * charVal n1 + charVal n2
          second := 10 * charVal e1 + charVal e2
          offsetEastMin := if sg = '+' then absMin else -absMin }
    else none
  | _ => none

/-- The instant denoted by a parsed `formatLocalISO` string: civil fields are
local time, shifted back to UTC by the offset; the shape carries no fractional
seconds. -/
def instantOfParsedISO (p : ParsedISO) : Int :=
  daysFromCivil (Int.ofNat p.year) p.month p.day * 86400000
    + p.hour * 3600000 + p.minute * 60000 + p.second * 1000
    - p.offsetEastMin * 60000

/-- UTF-8 bytes of a character (values 0-255), the standard 1-4 byte coding. -/
def utf8Bytes (c : Char) : List Nat :=
  let n := c.toNat
  if n < 128 then [n]
  else if n < 2048 then [192 + n / 64, 128 + n % 64]
  else if n < 65536 then [224 + n / 4096, 128 + n / 64 % 64, 128 + n % 64]
  else [240 + n / 262144, 128 + n / 4096 % 64, 128 + n / 64 % 64, 128 + n % 64]

/-- Uppercase hexadecimal digit character for a value below sixteen. -/
def hexDigitChar (n : Nat) : Char :=
  if n < 10 then digitChar n else Char.ofNat (55 + n)

/-- Characters the JavaScript `encodeURIComponent` leaves unescaped:
alphanumerics and `-_.!~*'()`. -/
def isURIUnreserved (c : Char) : Bool :=
  c.isAlphanum || (("-_.!~*()").data ++ [Char.ofNat 39]).contains c

/-- Model of the host function `encodeURIComponent`: unreserved characters are
kept, every other character is replaced by the percent-coded bytes of its
UTF-8 encoding. -/
def encodeURIComponent (s : List Char) : List Char :=
  (s.map fun c =>
    if isURIUnreserved c then [c]
    else ((utf8Bytes c).map fun b => ['%', hexDigitChar (b / 16), hexDigitChar (b % 16)]).flatten).flatten

/-- Outcome of a `fetch` call: either the promise rejects with a network error
message, or a response arrives with a status, a status text and a parsed body. -/
inductive FetchResult (α : Type) where
  | netError (msg : List Char)
  | response (status : Nat) (statusText : List Char) (body : α)

/-- Whether a response status makes `Response.ok` true: 200-299. -/
def statusOk (status : Nat) : Bool := 200 ≤ status && status ≤ 299

/-- Body of `GET /rest/items/\x7bitemName\x7d`: the `unitSymbol` field may be
present or absent. -/
structure ItemMeta where
  unitSymbol : Option (List Char)

/-- One record of the persistence response's `data` array: `time` is the
instant denoted by the record's timestamp (what `new Date(dp.time)` yields, in
milliseconds since the epoch), `state` the raw value string. -/
structure DataPoint where
  time : Int
  state : List Char

/-- Body of the persistence endpoint: the `data` array may be absent, which the
source defaults to an empty array via `json.data || []`. -/
structure PersistBody where
  data : Option (List DataPoint)

/-- One row assembled by `fetchPersistenceData` from a datapoint. -/
structure Row where
  item : List Char
  time : Int
  utcIso : List Char
  localIso : List Char
  value : List Char

/-- The ambient world of one `handleDownload` invocation: the two backend
responses and the environment's timezone offset (the `getTimezoneOffset`
value, minutes west of UTC, read by the local-time getters). -/
structure Env where
  itemFetch : FetchResult ItemMeta
  historyFetch : FetchResult PersistBody
  tz : Int

/-- The validated export parameters stored by the form submit handler. -/
inductive FileFormat where
  | CSV
  | JSON
  deriving DecidableEq, Repr

/-- The `exportFormData` record stored on successful form submission. -/
structure ExportFormData where
  itemName : List Char
  beginDate : List Char
  endDate : List Char
  fileFormat : FileFormat

/-- The local-getter view of `new Date(ms)` in an environment whose
`getTimezoneOffset` is `tz` minutes west of UTC. -/
def jsDateFromMs (ms tz : Int) : JSDate :=
  let localMs := ms - tz * 60000
  let days := Int.fdiv localMs 86400000
  let rem := (localMs - days * 86400000).toNat
  let c := civilFromDays days
  { fullYear := c.1, month := c.2.1 - 1, date := c.2.2,
    hours := rem / 3600000, minutes := rem / 60000 % 60, seconds := rem / 1000 % 60,
    milliseconds := rem % 1000, timezoneOffset := tz }

/-- Model of the host function `Date.prototype.toISOString`: UTC calendar
fields, zero-padded, with milliseconds and a trailing `Z`; years outside
0-9999 use the expanded six-digit signed form. -/
def toISOString (ms : Int) : List Char :=
  let days := Int.fdiv ms 86400000
  let rem := (ms - days * 86400000).toNat
  let c := civilFromDays days
  let y := c.1
  let yearStr :=
    if 0 ≤ y ∧ y ≤ 9999 then padTo 4 y.toNat
    else if y < 0 then '-' :: padTo 6 y.natAbs
    else '+' :: padTo 6 y.toNat
  yearStr ++ '-' :: padTo 2 c.2.1 ++ '-' :: padTo 2 c.2.2
    ++ 'T' :: padTo 2 (rem / 3600000) ++ ':' :: padTo 2 (rem / 60000 % 60)
    ++ ':' :: padTo 2 (rem / 1000 % 60) ++ '.' :: padTo 3 (rem % 1000) ++ ['Z']

/-- The nested `fetchItemUnit` of `handleDownload`: a network error or non-2xx
status becomes a thrown error naming the item; otherwise the unit symbol, with
an absent or empty `unitSymbol` collapsing to the empty string per
`json.unitSymbol || ""`. -/
def fetchItemUnit (itemName : List Char) (res : FetchResult ItemMeta) :
    Except (List Char) (List Char) :=
  match res with
  | .netError msg =>
    .error (("Error fetching item metadata for ").data ++ itemName ++ (": ").data ++ msg)
  | .response status statusText meta =>
    if statusOk status then
      .ok (match meta.unitSymbol with | some u => u | none => [])
    else
      .error (("Failed to fetch item metadata for ").data ++ itemName ++ (": ").data
        ++ natDigits status ++ (" ").data ++ statusText)

/-- The nested `fetchPersistenceData` of `handleDownload`: network errors and
non-2xx statuses throw; an empty `data` array throws the no-data error naming
the item and the requested range; otherwise each datapoint becomes a `Row`
with both timestamp projections. -/
def fetchPersistenceData (itemName beginDate endDate : List Char) (tz : Int)
    (res : FetchResult PersistBody) : Except (List Char) (List Row) :=
  match res with
  | .netError msg =>
    .error (("Network error fetching history for ").data ++ itemName ++ (": ").data ++ msg)
  | .response status _ body =>
    if statusOk status then
      let data := match body.data with | some l => l | none => []
      if data.isEmpty then
        .error (("No data found for ").data ++ itemName ++ (" in range ").data
          ++ beginDate ++ (" to ").data ++ endDate)
      else
        .ok (data.map fun dp =>
          { item := itemName, time := dp.time, utcIso := toISOString dp.time,
            localIso := formatLocalISO (jsDateFromMs dp.time tz), value := dp.state })
    else
      .error (("Failed to fetch history for ").data ++ itemName ++ (": ").data
        ++ natDigits status)

/-- A JSON value as handed to `JSON.stringify`; numbers here are the natural
counts the source serializes. -/
inductive JValue where
  | null
  | num (n : Nat)
  | str (s : List Char)
  | arr (elems : List JValue)
  | obj (fields : List (List Char × JValue))

/-- JSON string-literal escaping as performed by `JSON.stringify`: quote and
backslash get a backslash, the common control characters get their short
escapes, the remaining control characters a `\u00XX` escape. -/
def jsonEscapeChar (c : Char) : List Char :=
  if c = '"' then ['\\', '"']
  else if c = '\\' then ['\\', '\\']
  else if c = Char.ofNat 8 then ['\\', 'b']
  else if c = Char.ofNat 9 then ['\\', 't']
  else if c = Char.ofNat 10 then ['\\', 'n']
  else if c = Char.ofNat 12 then ['\\', 'f']
  else if c = Char.ofNat 13 then ['\\', 'r']
  else if c.toNat < 32 then
    ['\\', 'u', '0', '0', hexDigitChar (c.toNat / 16), hexDigitChar (c.toNat % 16)]
  else [c]

/-- JSON escaping of a whole string body (without the surrounding quotes). -/
def jsonEscape (s : List Char) : List Char := (s.map jsonEscapeChar).flatten

/-- A JSON string literal: escaped body wrapped in double quotes. -/
def jsonQuote (s : List Char) : List Char := '"' :: (jsonEscape s ++ ['"'])

/-- Indentation produced by `JSON.stringify(x, null, 2)` at a nesting depth. -/
def jsonIndent (depth : Nat) : List Char := List.replicate (2 * depth) ' '

/-- Model of `JSON.stringify(x, null, 2)`.  The first argument is fuel bounding
the nesting depth (call sites pass fuel exceeding the depth of their value, so
the zero-fuel branch is never taken); `depth` is the current nesting depth.
Non-empty arrays and objects put every element on its own line, each one
indented one level deeper, and close on a fresh line at the current level. -/
def jsonStringifyVal : Nat → JValue → Nat → List Char
  | 0, _, _ => []
  | _ + 1, .null, _ => ("null").data
  | _ + 1, .num n, _ => natDigits n
  | _ + 1, .str s, _ => jsonQuote s
  | _ + 1, .arr [], _ => ("[]").data
  | fuel + 1, .arr (x :: xs), depth =>
    '[' :: '\n' ::
      (List.intercalate ((",\n").data)
        ((x :: xs).map fun v => jsonIndent (depth + 1) ++ jsonStringifyVal fuel v (depth + 1))
      ++ '\n' :: jsonIndent depth ++ [']'])
  | _ + 1, .obj [], _ => ("\x7b\x7d").data
  | fuel + 1, .obj (f :: fs), depth =>
    '\x7b' :: '\n' ::
      (List.intercalate ((",\n").data)
        ((f :: fs).map fun kv =>
          jsonIndent (depth + 1) ++ jsonQuote kv.1 ++ ':' :: ' ' ::
            jsonStringifyVal fuel kv.2 (depth + 1))
      ++ '\n' :: jsonIndent depth ++ ['\x7d'])

/-- The URL requested by the nested `fetchItemUnit`. -/
def itemURL (itemName : List Char) : List Char :=
  ("/rest/items/").data ++ encodeURIComponent itemName

/-- The query parameters of the history fetch: the item and the two ISO bound
strings handed to the URL template (URL-encoded there by
`encodeURIComponent`). -/
structure HistoryRequest where
  itemName : List Char
  starttime : List Char
  endtime : List Char
  deriving DecidableEq, Repr

/-- The URL requested by the nested `fetchPersistenceData`. -/
def persistenceURL (r : HistoryRequest) : List Char :=
  ("/rest/persistence/items/").data ++ encodeURIComponent r.itemName
    ++ ("?starttime=").data ++ encodeURIComponent r.starttime
    ++ ("&endtime=").data ++ encodeURIComponent r.endtime

/-- The unit of work handed to the download sink `downloadFile`. -/
structure ExportResult where
  filename : List Char
  mime : List Char
  content : List Char
  deriving DecidableEq, Repr

/-- The observable outcome of one `handleDownload` invocation: the error text
shown on the download page (if any), the returned promise (rejected with a
message or resolved), the URLs of the requests actually issued, and the file
handed to the download sink (if any). -/
structure DownloadOutcome where
  displayedError : Option (List Char)
  result : Except (List Char) Unit
  unitRequest : Option (List Char)
  historyRequest : Option HistoryRequest
  download : Option ExportResult

/-- The `handleDownload` handler of the application file: bail out when no
export form data is stored; otherwise fetch the unit, fetch the history over
the whole-day UTC span derived from the stored dates, and serialize the rows
as CSV or JSON, handing the file to the download sink.  Any fetch error is
displayed and rejects the returned promise.  In the JSON branch the `time`
field holds the row's `Date` object, which `JSON.stringify` serializes through
its `toJSON` hook as exactly the `toISOString` string, i.e. the row's
`utcIso`. -/
def handleDownload (exportFormData : Option ExportFormData) (env : Env) : DownloadOutcome :=
  match exportFormData with
  | none =>
    { displayedError := some (("No export form data available!").data)
      result := .error (("No export form data available!").data)
      unitRequest := none, historyRequest := none, download := none }
  | some fd =>
    let filename := fd.itemName ++ ('_' :: fd.beginDate) ++ ("_to_").data ++ fd.endDate
    let startISO := fd.beginDate ++ ("T00:00:00.000Z").data
    let endISO := fd.endDate ++ ("T23:59:59.999Z").data
    match fetchItemUnit fd.itemName env.itemFetch with
    | .error e =>
      { displayedError := some e, result := .error e,
        unitRequest := some (itemURL fd.itemName), historyRequest := none, download := none }
    | .ok unit =>
      let hreq : HistoryRequest := ⟨fd.itemName, startISO, endISO⟩
      match fetchPersistenceData fd.itemName fd.beginDate fd.endDate env.tz env.historyFetch with
      | .error e =>
        { displayedError := some e, result := .error e,
          unitRequest := some (itemURL fd.itemName), historyRequest := some hreq,
          download := none }
      | .ok data =>
        match fd.fileFormat with
        | .CSV =>
          let header :=
            List.intercalate ((",").data)
              (([("Item Name").data, ("UTC Time").data, ("Local Time").data,
                 ("Value").data, ("Unit").data]).map fun f => escapeCSVField (.str f))
              ++ ("\n").data
          let rows := data.map fun dp =>
            List.intercalate ((",").data)
              [escapeCSVField (.str dp.item), escapeCSVField (.str dp.utcIso),
               escapeCSVField (.str dp.localIso), dp.value,
               if unit.isEmpty then [] else escapeCSVField (.str unit)]
              ++ ("\n").data
          let content := (header :: rows).flatten
          { displayedError := none, result := .ok (),
            unitRequest := some (itemURL fd.itemName), historyRequest := some hreq,
            download := some ⟨filename, ("text/csv;charset=utf-8").data, content⟩ }
        | .JSON =>
          let jsonOut : JValue :=
            .obj
              [(("itemName").data, .str fd.itemName),
               (("unit").data, if unit.isEmpty then .null else .str unit),
               (("beginDate").data, .str fd.beginDate),
               (("endDate").data, .str fd.endDate),
               (("datapoints").data, .num data.length),
               (("data").data, .arr (data.map fun r =>
                 .obj
                   [(("time").data, .str r.utcIso),
                    (("timeUtc").data, .str r.utcIso),
                    (("timeLocal").data, .str r.localIso),
                    (("value").data, .str r.value)]))]
          let content := jsonStringifyVal 4 jsonOut 0
          { displayedError := none, result := .ok (),
            unitRequest := some (itemURL fd.itemName), historyRequest := some hreq,
            download := some ⟨filename, ("application/json;charset=utf-8").data, content⟩ }

/-- The `handleRestart` handler's effect on the stored export parameters: they
are cleared unconditionally. -/
def handleRestartExportData (_prev : Option ExportFormData) : Option ExportFormData := none

/-- Whitespace for the model of `String.prototype.trim`. -/
def isJSWhitespace (c : Char) : Bool :=
  c = ' ' || c = '\t' || c = '\n' || c = '\r' || c = Char.ofNat 11 || c = Char.ofNat 12

/-- Model of `String.prototype.trim`: strip whitespace from both ends. -/
def jsTrim (s : List Char) : List Char :=
  ((s.dropWhile isJSWhitespace).reverse.dropWhile isJSWhitespace).reverse

/-- Helper for `splitOnList`, structurally recursive on a fuel bound (the fuel
always exceeds the input length at the call site, so the zero-fuel branch is
never taken); `acc` collects the current piece in reverse. -/
def splitOnAux (sep : List Char) : Nat → List Char → List Char → List (List Char)
  | _, [], acc => [acc.reverse]
  | 0, s, acc => [acc.reverse ++ s]
  | fuel + 1, c :: rest, acc =>
    if sep.isPrefixOf (c :: rest) then
      acc.reverse :: splitOnAux sep fuel (List.drop (sep.length - 1) rest) []
    else
      splitOnAux sep fuel rest (c :: acc)

/-- Model of `String.prototype.split` with a non-empty separator string. -/
def splitOnList (sep s : List Char) : List (List Char) :=
  splitOnAux sep (s.length + 1) s []

/-- Days in a month of the proleptic Gregorian calendar. -/
def daysInMonth (y : Int) (m : Nat) : Nat :=
  if m = 2 then
    if y % 4 = 0 ∧ (y % 100 ≠ 0 ∨ y % 400 = 0) then 29 else 28
  else if m = 4 ∨ m = 6 ∨ m = 9 ∨ m = 11 then 30
  else 31

/-- Model of `new Date(s)` applied to a date-only string: a well-formed
`YYYY-MM-DD` string with an existing calendar date yields the instant of that
date's UTC midnight; anything else yields an invalid date (`none`, whose time
value is NaN). -/
def parseDateYMD (s : List Char) : Option Int :=
  match s with
  | [y1, y2, y3, y4, h1, m1, m2, h2, d1, d2] =>
    if y1.isDigit && y2.isDigit && y3.isDigit && y4.isDigit && h1 == '-'
        && m1.isDigit && m2.isDigit && h2 == '-' && d1.isDigit && d2.isDigit then
      let y := 1000 * charVal y1 + 100 * charVal y2 + 10 * charVal y3 + charVal y4
      let m := 10 * charVal m1 + charVal m2
      let d := 10 * charVal d1 + charVal d2
      if 1 ≤ m ∧ m ≤ 12 ∧ 1 ≤ d ∧ d ≤ daysInMonth (Int.ofNat y) m then
        some (daysFromCivil (Int.ofNat y) m d * 86400000)
      else none
    else none
  | _ => none

/-- The comparison `begin > end` on two `Date` objects: both are converted to
their time values; a NaN time value (invalid date) makes the comparison
false. -/
def jsDateGT (a b : Option Int) : Bool :=
  match a, b with
  | some x, some y => y < x
  | _, _ => false

/-- The form state read by `handleFormSubmit`: the raw field values, the
checked format radio button and the currently stored export parameters. -/
structure SubmitState where
  itemNameField : List Char
  dateRangeField : List Char
  fileFormatChecked : FileFormat
  exportFormData : Option ExportFormData

/-- The observable outcome of one `handleFormSubmit` invocation: the field
error shown (identified by field id, with its message), the stored export
parameters afterwards, the wizard step navigated to, and the URLs of network
requests issued by the handler (always empty: the submit handler performs no
fetch). -/
structure SubmitOutcome where
  fieldError : Option (List Char × List Char)
  exportFormData : Option ExportFormData
  step : Nat
  requests : List (List Char)

/-- The `handleFormSubmit` handler of the application file: validate the
trimmed item name and the date range field, split the range on `" to "`,
reject when the parsed begin date is after the parsed end date, and otherwise
store the export parameters and navigate to the download step. -/
def handleFormSubmit (st : SubmitState) : SubmitOutcome :=
  let itemName := jsTrim st.itemNameField
  if itemName.isEmpty then
    { fieldError := some ((("itemName").data, ("Item name is required").data))
      exportFormData := st.exportFormData, step := 1, requests := [] }
  else if st.dateRangeField.isEmpty then
    { fieldError := some ((("dateRange").data, ("Date range is required").data))
      exportFormData := st.exportFormData, step := 2, requests := [] }
  else
    let dates := splitOnList ((" to ").data) st.dateRangeField
    if dates.length ≠ 2 then
      { fieldError := some ((("dateRange").data, ("Please select a valid date range").data))
        exportFormData := st.exportFormData, step := 2, requests := [] }
    else
      let beginDate := jsTrim (dates.getD 0 [])
      let endDate := jsTrim (dates.getD 1 [])
      if jsDateGT (parseDateYMD beginDate) (parseDateYMD endDate) then
        { fieldError := some ((("dateRange").data, ("Begin date must be before end date").data))
          exportFormData := st.exportFormData, step := 2, requests := [] }
      else
        { fieldError := none
          exportFormData := some
            { itemName := itemName, beginDate := beginDate, endDate := endDate,
              fileFormat := st.fileFormatChecked }
          step := 4, requests := [] }

/-! Theorems.  Shared helper lemmas come first, then one theorem per claim
(with its witness or counterexample where required). -/

theorem regexClassTest_eq (d : Char) (hd1 : d ≠ '\\') (hd2 : d ≠ '^') (hd3 : d ≠ ']')
    (c : Char) : regexClassTest d c = isFieldSpecial d c := by
  simp only [regexClassTest, if_neg hd1, if_neg hd2, if_neg hd3, isFieldSpecial]

theorem parseQuotedRest_doubleQuotes (s : List Char) :
    parseQuotedRest (doubleQuotes s ++ ['"']) = some s := by
  induction s with
  | nil => rfl
  | cons c rest ih =>
    by_cases hc : c = '"'
    · subst hc
      simp [doubleQuotes, parseQuotedRest, ih]
    · rcases h2 : doubleQuotes rest ++ ['"'] with _ | ⟨d2, t2⟩
      · simp at h2
      · rw [h2] at ih
        simp [doubleQuotes, hc, h2, parseQuotedRest, ih]

/-- C1 (amended): for every string `s` and every delimiter `d` that is spliced
literally into the source's regular-expression character class -- every `d`
other than backslash (which escapes the following quote), caret (which negates
the class) and closing bracket (which empties the class) -- parsing
`escapeCSVField s d` with a conformant RFC 4180 single-field parser configured
with delimiter `d` yields back exactly `s`; quoting is applied exactly when
`s` contains the delimiter, a double quote, a carriage return or a line feed,
and wraps the value in double quotes doubling every embedded quote.  For the
three excluded delimiters the claim fails in the source (see the
counterexample). -/
theorem escapeCSVField_roundtrip (s : List Char) (d : Char)
    (hd1 : d ≠ '\\') (hd2 : d ≠ '^') (hd3 : d ≠ ']') :
    parseCSVField d (escapeCSVField (.str s) d) = some s ∧
    (s.any (isFieldSpecial d) = true →
      escapeCSVField (.str s) d = '"' :: (doubleQuotes s ++ ['"'])) ∧
    (s.any (isFieldSpecial d) = false → escapeCSVField (.str s) d = s) := by
  have hq : escapeCSVField (.str s) d =
      if s.any (isFieldSpecial d) then '"' :: (doubleQuotes s ++ ['"']) else s := by
    simp only [escapeCSVField, regexClassTest_eq d hd1 hd2 hd3]
  refine ⟨?_, ?_, ?_⟩
  · rw [hq]
    by_cases h : s.any (isFieldSpecial d)
    · simp only [h, if_true, parseCSVField, if_pos rfl]
      exact parseQuotedRest_doubleQuotes s
    · simp only [h, if_false]
      cases s with
      | nil => rfl
      | cons c rest =>
        have hc : c ≠ '"' := by
          intro hcq
          apply h
          simp [List.any_cons, hcq, isFieldSpecial]
        simp only [Bool.not_eq_true] at h
        simp [parseCSVField, hc, h]
  · intro h
    rw [hq, if_pos h]
  · intro h
    rw [hq]
    simp [h]

/-- Witness for the amended C1 at the default comma delimiter. -/
theorem escapeCSVField_roundtrip_witness :
    parseCSVField ',' (escapeCSVField (.str (("a,b").data)) ',') = some (("a,b").data) :=
  (escapeCSVField_roundtrip (("a,b").data) ',' (by decide) (by decide) (by decide)).1

/-- Counterexample to C1 as stated, at each delimiter the class does not treat
literally.  With delimiter `\` the constructed class `[\"\r\n]` does not match
the delimiter itself, so a value containing it stays unquoted and does not
survive a conformant RFC 4180 parse.  With delimiter `^` the class is negated:
a lone quote stays unquoted (and fails to parse) while a harmless `a` is
quoted although it contains no special character, refuting the
quoting-exactly-when clause in both directions.  With delimiter `]` the class
is empty and never matches, so a value containing the delimiter stays unquoted
and fails to parse. -/
theorem escapeCSVField_backslash_counterexample :
    (parseCSVField '\\' (escapeCSVField (.str (("a\\b").data)) '\\')
        ≠ some (("a\\b").data) ∧
      escapeCSVField (.str (("a\\b").data)) '\\' = ("a\\b").data ∧
      (("a\\b").data).any (isFieldSpecial '\\') = true) ∧
    (parseCSVField '^' (escapeCSVField (.str (("\"").data)) '^') ≠ some (("\"").data) ∧
      escapeCSVField (.str (("\"").data)) '^' = ("\"").data ∧
      escapeCSVField (.str (("a").data)) '^' ≠ ("a").data ∧
      (("a").data).any (isFieldSpecial '^') = false) ∧
    (parseCSVField ']' (escapeCSVField (.str (("a]b").data)) ']') ≠ some (("a]b").data) ∧
      escapeCSVField (.str (("a]b").data)) ']' = ("a]b").data ∧
      (("a]b").data).any (isFieldSpecial ']') = true) := by
  refine ⟨by decide, by decide, by decide⟩

/-- C8: `escapeCSVField` maps `null` and `undefined` to the empty string, for
every delimiter, and in neither case is the output the literal text `null` or
`undefined`. -/
theorem escapeCSVField_null_undefined (d : Char) :
    escapeCSVField .null d = [] ∧ escapeCSVField .undefined d = [] ∧
    escapeCSVField .null d ≠ ("null").data ∧
    escapeCSVField .undefined d ≠ ("undefined").data := by
  refine ⟨rfl, rfl, ?_, ?_⟩
  · show ([] : List Char) ≠ ("null").data
    decide
  · show ([] : List Char) ≠ ("undefined").data
    decide

theorem charVal_digitChar (k : Nat) (h : k ≤ 9) : charVal (digitChar k) = k := by
  interval_cases k <;> decide

theorem isDigit_digitChar (k : Nat) (h : k ≤ 9) : (digitChar k).isDigit = true := by
  interval_cases k <;> decide

theorem natDigitsAux_base (fuel n : Nat) (h : n < 10) :
    natDigitsAux (fuel + 1) n = [digitChar n] := by
  simp [natDigitsAux, h]

theorem natDigitsAux_step (fuel n : Nat) (h : 10 ≤ n) :
    natDigitsAux (fuel + 1) n = natDigitsAux fuel (n / 10) ++ [digitChar (n % 10)] := by
  simp only [natDigitsAux]
  rw [if_neg (by omega)]

theorem natDigitsAux_congr (n : Nat) : ∀ (fuel fuel' : Nat), n < fuel → n < fuel' →
    natDigitsAux fuel n = natDigitsAux fuel' n := by
  induction n using Nat.strong_induction_on with
  | _ n ih =>
    intro fuel fuel' hf hf'
    cases fuel with
    | zero => omega
    | succ f =>
      cases fuel' with
      | zero => omega
      | succ f' =>
        by_cases h10 : n < 10
        · rw [natDigitsAux_base f n h10, natDigitsAux_base f' n h10]
        · rw [natDigitsAux_step f n (by omega), natDigitsAux_step f' n (by omega)]
          congr 1
          exact ih (n / 10) (by omega) f f' (by omega) (by omega)

theorem natDigits_base (n : Nat) (h : n < 10) : natDigits n = [digitChar n] :=
  natDigitsAux_base n n h

theorem natDigits_step (n : Nat) (h : 10 ≤ n) :
    natDigits n = natDigits (n / 10) ++ [digitChar (n % 10)] := by
  show natDigitsAux (n + 1) n = _
  rw [natDigitsAux_step n n h]
  congr 1
  exact natDigitsAux_congr (n / 10) n (n / 10 + 1) (by omega) (by omega)

theorem pad_two (n : Nat) (h : n < 100) :
    pad n = [digitChar (n / 10), digitChar (n % 10)] := by
  by_cases h10 : n < 10
  · have h0 : digitChar (n / 10) = '0' := by
      have : n / 10 = 0 := by omega
      rw [this]; decide
    have h1 : n % 10 = n := by omega
    rw [pad, if_pos h10, natDigits_base n h10, h0, h1]
  · rw [pad, if_neg h10, natDigits_step n (by omega),
      natDigits_base (n / 10) (by omega)]
    rfl

theorem natDigits_four (n : Nat) (h1 : 1000 ≤ n) (h2 : n ≤ 9999) :
    natDigits n = [digitChar (n / 1000), digitChar (n / 100 % 10),
      digitChar (n / 10 % 10), digitChar (n % 10)] := by
  have e2 : n / 10 / 10 = n / 100 := by omega
  have e3 : n / 100 / 10 = n / 1000 := by omega
  rw [natDigits_step n (by omega), natDigits_step (n / 10) (by omega), e2,
    natDigits_step (n / 100) (by omega), e3, natDigits_base (n / 1000) (by omega)]
  rfl


theorem formatLocalISO_explicit (d : JSDate)
    (hy1 : 1000 ≤ d.fullYear) (hy2 : d.fullYear ≤ 9999)
    (hmo : d.month ≤ 11) (hda : d.date ≤ 31) (hho : d.hours ≤ 23)
    (hmi : d.minutes ≤ 59) (hse : d.seconds ≤ 59)
    (htz : d.timezoneOffset.natAbs ≤ 1439) :
    formatLocalISO d =
      [digitChar (d.fullYear.natAbs / 1000), digitChar (d.fullYear.natAbs / 100 % 10),
       digitChar (d.fullYear.natAbs / 10 % 10), digitChar (d.fullYear.natAbs % 10), '-',
       digitChar ((d.month + 1) / 10), digitChar ((d.month + 1) % 10), '-',
       digitChar (d.date / 10), digitChar (d.date % 10), 'T',
       digitChar (d.hours / 10), digitChar (d.hours % 10), ':',
       digitChar (d.minutes / 10), digitChar (d.minutes % 10), ':',
       digitChar (d.seconds / 10), digitChar (d.seconds % 10),
       if 0 ≤ -d.timezoneOffset then '+' else '-'] ++
      [digitChar (d.timezoneOffset.natAbs / 60 / 10),
       digitChar (d.timezoneOffset.natAbs / 60 % 10), ':',
       digitChar (d.timezoneOffset.natAbs % 60 / 10),
       digitChar (d.timezoneOffset.natAbs % 60 % 10)] := by
  have hyn : ¬ d.fullYear < 0 := by omega
  have hy : intStr d.fullYear = natDigits d.fullYear.natAbs := by
    rw [intStr, if_neg hyn]
  rw [formatLocalISO, hy,
    natDigits_four d.fullYear.natAbs (by omega) (by omega),
    pad_two (d.month + 1) (by omega), pad_two d.date (by omega),
    pad_two d.hours (by omega), pad_two d.minutes (by omega),
    pad_two d.seconds (by omega)]
  rw [show (-d.timezoneOffset).natAbs = d.timezoneOffset.natAbs from Int.natAbs_neg _,
    pad_two (d.timezoneOffset.natAbs / 60) (by omega),
    pad_two (d.timezoneOffset.natAbs % 60) (by omega)]
  simp


/-- C2 (amended): for every valid instant whose local calendar year has four
digits (1000-9999) and whose millisecond component is zero -- instants being
observed through the local-time getters of `Date`, with any real-world
timezone offset -- `formatLocalISO` matches the fixed-width pattern
(fields zero-padded, offset sign `+` for zero or positive offset, no
fractional seconds) and re-parsing the produced string yields the same
instant.  Without those two restrictions the claim fails: the year is
rendered unpadded and the millisecond component is dropped (see the
counterexample). -/
theorem formatLocalISO_pattern_roundtrip (d : JSDate)
    (hy1 : 1000 ≤ d.fullYear) (hy2 : d.fullYear ≤ 9999)
    (hmo : d.month ≤ 11) (hda : d.date ≤ 31) (hho : d.hours ≤ 23)
    (hmi : d.minutes ≤ 59) (hse : d.seconds ≤ 59) (hms : d.milliseconds = 0)
    (htz : d.timezoneOffset.natAbs ≤ 1439) :
    matchesLocalISOPattern (formatLocalISO d) = true ∧
    (parseLocalISO (formatLocalISO d)).map instantOfParsedISO
      = some (instantOfJSDate d) := by
  rw [formatLocalISO_explicit d hy1 hy2 hmo hda hho hmi hse htz]
  simp only [List.cons_append, List.nil_append]
  have ha : d.fullYear.natAbs ≤ 9999 := by omega
  have D : ∀ k : Nat, k ≤ 9 → (digitChar k).isDigit = true := isDigit_digitChar
  have Dmod : ∀ k : Nat, (digitChar (k % 10)).isDigit = true := fun k => D _ (by omega)
  have D1 : (digitChar (d.fullYear.natAbs / 1000)).isDigit = true := D _ (by omega)
  have D2 : (digitChar ((d.month + 1) / 10)).isDigit = true := D _ (by omega)
  have D3 : (digitChar (d.date / 10)).isDigit = true := D _ (by omega)
  have D4 : (digitChar (d.hours / 10)).isDigit = true := D _ (by omega)
  have D5 : (digitChar (d.minutes / 10)).isDigit = true := D _ (by omega)
  have D6 : (digitChar (d.seconds / 10)).isDigit = true := D _ (by omega)
  have D7 : (digitChar (d.timezoneOffset.natAbs / 60 / 10)).isDigit = true := D _ (by omega)
  have D8 : (digitChar (d.timezoneOffset.natAbs % 60 / 10)).isDigit = true := D _ (by omega)
  have hsign : ((if (0 : Int) ≤ -d.timezoneOffset then '+' else '-') == '+'
      || (if (0 : Int) ≤ -d.timezoneOffset then '+' else '-') == '-') = true := by
    by_cases hs : (0 : Int) ≤ -d.timezoneOffset <;> simp [hs]
  have hpat : matchesLocalISOPattern
      [digitChar (d.fullYear.natAbs / 1000), digitChar (d.fullYear.natAbs / 100 % 10),
       digitChar (d.fullYear.natAbs / 10 % 10), digitChar (d.fullYear.natAbs % 10), '-',
       digitChar ((d.month + 1) / 10), digitChar ((d.month + 1) % 10), '-',
       digitChar (d.date / 10), digitChar (d.date % 10), 'T',
       digitChar (d.hours / 10), digitChar (d.hours % 10), ':',
       digitChar (d.minutes / 10), digitChar (d.minutes % 10), ':',
       digitChar (d.seconds / 10), digitChar (d.seconds % 10),
       if (0 : Int) ≤ -d.timezoneOffset then '+' else '-',
       digitChar (d.timezoneOffset.natAbs / 60 / 10),
       digitChar (d.timezoneOffset.natAbs / 60 % 10), ':',
       digitChar (d.timezoneOffset.natAbs % 60 / 10),
       digitChar (d.timezoneOffset.natAbs % 60 % 10)] = true := by
    simp only [matchesLocalISOPattern, D1, D2, D3, D4, D5, D6, D7, D8, Dmod, hsign,
      beq_self_eq_true, Bool.and_self, Bool.and_true, Bool.true_and]
  refine ⟨hpat, ?_⟩
  rw [parseLocalISO, if_pos hpat]
  have C : ∀ k : Nat, k ≤ 9 → charVal (digitChar k) = k := charVal_digitChar
  have Cmod : ∀ k : Nat, charVal (digitChar (k % 10)) = k % 10 := fun k => C _ (by omega)
  have hyv : 1000 * charVal (digitChar (d.fullYear.natAbs / 1000))
      + 100 * charVal (digitChar (d.fullYear.natAbs / 100 % 10))
      + 10 * charVal (digitChar (d.fullYear.natAbs / 10 % 10))
      + charVal (digitChar (d.fullYear.natAbs % 10)) = d.fullYear.natAbs := by
    rw [C _ (by omega), Cmod, Cmod, Cmod]; omega
  have hmon : 10 * charVal (digitChar ((d.month + 1) / 10))
      + charVal (digitChar ((d.month + 1) % 10)) = d.month + 1 := by
    rw [C _ (by omega), Cmod]; omega
  have hday : 10 * charVal (digitChar (d.date / 10))
      + charVal (digitChar (d.date % 10)) = d.date := by
    rw [C _ (by omega), Cmod]; omega
  have hhour : 10 * charVal (digitChar (d.hours / 10))
      + charVal (digitChar (d.hours % 10)) = d.hours := by
    rw [C _ (by omega), Cmod]; omega
  have hminu : 10 * charVal (digitChar (d.minutes / 10))
      + charVal (digitChar (d.minutes % 10)) = d.minutes := by
    rw [C _ (by omega), Cmod]; omega
  have hsec : 10 * charVal (digitChar (d.seconds / 10))
      + charVal (digitChar (d.seconds % 10)) = d.seconds := by
    rw [C _ (by omega), Cmod]; omega
  have habs : 60 * (10 * charVal (digitChar (d.timezoneOffset.natAbs / 60 / 10))
      + charVal (digitChar (d.timezoneOffset.natAbs / 60 % 10)))
      + (10 * charVal (digitChar (d.timezoneOffset.natAbs % 60 / 10))
      + charVal (digitChar (d.timezoneOffset.natAbs % 60 % 10)))
      = d.timezoneOffset.natAbs := by
    rw [C _ (by omega), Cmod, C _ (by omega), Cmod]; omega
  simp only [Option.map_some', Option.some.injEq]
  simp only [instantOfParsedISO, instantOfJSDate]
  simp only [hyv, hmon, hday, hhour, hminu, hsec, habs]
  rw [show Int.ofNat d.fullYear.natAbs = d.fullYear from Int.natAbs_of_nonneg (by omega)]
  generalize daysFromCivil d.fullYear (d.month + 1) d.date = DD
  by_cases hs : (0 : Int) ≤ -d.timezoneOffset
  · have he : Int.ofNat d.timezoneOffset.natAbs = -d.timezoneOffset := by
      rw [← Int.natAbs_neg]
      exact Int.natAbs_of_nonneg hs
    rw [if_pos hs, if_pos rfl, hms, he]
    omega
  · have he : Int.ofNat d.timezoneOffset.natAbs = d.timezoneOffset :=
      Int.natAbs_of_nonneg (by omega)
    rw [if_neg hs, if_neg (by decide), hms, he]
    omega


/-- Witness for the amended C2 at a concrete date east of UTC. -/
theorem formatLocalISO_pattern_roundtrip_witness :
    matchesLocalISOPattern (formatLocalISO ⟨2025, 10, 10, 15, 12, 34, 0, -60⟩) = true ∧
    (parseLocalISO (formatLocalISO ⟨2025, 10, 10, 15, 12, 34, 0, -60⟩)).map instantOfParsedISO
      = some (instantOfJSDate ⟨2025, 10, 10, 15, 12, 34, 0, -60⟩) :=
  formatLocalISO_pattern_roundtrip ⟨2025, 10, 10, 15, 12, 34, 0, -60⟩ (by decide) (by decide)
    (by decide) (by decide) (by decide) (by decide) (by decide) (by decide) (by decide)

/-- Counterexample to C2 as stated: the valid instant 999-01-01T00:00:00.500
UTC (year 999, 500 ms) renders as a 24-character string failing the four-digit
year pattern, and even at a four-digit year (2024-01-01T00:00:00.500 UTC) the
rendered string re-parses to an instant 500 ms earlier than the original. -/
theorem formatLocalISO_counterexample :
    ¬(matchesLocalISOPattern (formatLocalISO ⟨999, 0, 1, 0, 0, 0, 500, 0⟩) = true ∧
      (parseLocalISO (formatLocalISO ⟨999, 0, 1, 0, 0, 0, 500, 0⟩)).map instantOfParsedISO
        = some (instantOfJSDate ⟨999, 0, 1, 0, 0, 0, 500, 0⟩)) ∧
    ¬(matchesLocalISOPattern (formatLocalISO ⟨2024, 0, 1, 0, 0, 0, 500, 0⟩) = true ∧
      (parseLocalISO (formatLocalISO ⟨2024, 0, 1, 0, 0, 0, 500, 0⟩)).map instantOfParsedISO
        = some (instantOfJSDate ⟨2024, 0, 1, 0, 0, 0, 500, 0⟩)) := by
  constructor
  · decide
  · decide


theorem handleDownload_of_unit_error (fd : ExportFormData) (env : Env) (e : List Char)
    (h : fetchItemUnit fd.itemName env.itemFetch = .error e) :
    handleDownload (some fd) env =
      { displayedError := some e, result := .error e,
        unitRequest := some (itemURL fd.itemName), historyRequest := none, download := none } := by
  simp [handleDownload, h]

/-- C5: whenever the unit-lookup stage fails (network error or non-2xx
status), the whole export aborts immediately: the error is displayed, the
returned promise rejects, the history fetch is never issued, and no file is
handed to the download sink. -/
theorem handleDownload_unit_lookup_failure (fd : ExportFormData) (env : Env)
    (h : (∃ msg, env.itemFetch = .netError msg) ∨
      (∃ st stx meta, env.itemFetch = .response st stx meta ∧ statusOk st = false)) :
    ∃ e, handleDownload (some fd) env =
      { displayedError := some e, result := .error e,
        unitRequest := some (itemURL fd.itemName), historyRequest := none, download := none } := by
  obtain ⟨msg, hm⟩ | ⟨st, stx, meta, hm, hst⟩ := h
  · exact ⟨_, handleDownload_of_unit_error fd env
      (("Error fetching item metadata for ").data ++ fd.itemName ++ (": ").data ++ msg)
      (by simp [fetchItemUnit, hm])⟩
  · exact ⟨_, handleDownload_of_unit_error fd env
      (("Failed to fetch item metadata for ").data ++ fd.itemName ++ (": ").data
        ++ natDigits st ++ (" ").data ++ stx)
      (by simp [fetchItemUnit, hm, hst])⟩

/-- Witness for C5 at a concrete failing unit lookup. -/
theorem handleDownload_unit_lookup_failure_witness :
    ∃ e, handleDownload
        (some ⟨("Temp").data, ("2024-01-01").data, ("2024-01-03").data, .CSV⟩)
        ⟨.netError (("connection refused").data), .response 200 [] ⟨some []⟩, 0⟩ =
      { displayedError := some e, result := .error e,
        unitRequest := some (itemURL (("Temp").data)), historyRequest := none,
        download := none } :=
  handleDownload_unit_lookup_failure _ _ (.inl ⟨_, rfl⟩)

/-- C4: when the unit lookup succeeds and the history fetch returns a 2xx
response whose data array is empty (or absent), the export aborts with the
no-data error naming the item and the requested range, and no file is handed
to the download sink. -/
theorem handleDownload_no_datapoints (fd : ExportFormData) (env : Env) (u : List Char)
    (st : Nat) (stx : List Char) (body : PersistBody)
    (hu : fetchItemUnit fd.itemName env.itemFetch = .ok u)
    (hh : env.historyFetch = .response st stx body)
    (hok : statusOk st = true)
    (hempty : (match body.data with | some l => l | none => []) = []) :
    (handleDownload (some fd) env).displayedError =
      some (("No data found for ").data ++ fd.itemName ++ (" in range ").data
        ++ fd.beginDate ++ (" to ").data ++ fd.endDate) ∧
    (handleDownload (some fd) env).result =
      .error (("No data found for ").data ++ fd.itemName ++ (" in range ").data
        ++ fd.beginDate ++ (" to ").data ++ fd.endDate) ∧
    (handleDownload (some fd) env).download = none := by
  have hp : fetchPersistenceData fd.itemName fd.beginDate fd.endDate env.tz env.historyFetch
      = .error (("No data found for ").data ++ fd.itemName ++ (" in range ").data
        ++ fd.beginDate ++ (" to ").data ++ fd.endDate) := by
    simp [fetchPersistenceData, hh, hok, hempty]
  simp [handleDownload, hu, hp]

/-- Witness for C4 at a concrete empty backend response. -/
theorem handleDownload_no_datapoints_witness :
    (handleDownload (some ⟨("Temp").data, ("2024-01-01").data, ("2024-01-03").data, .CSV⟩)
        ⟨.response 200 [] ⟨none⟩, .response 200 [] ⟨some []⟩, 0⟩).displayedError =
      some (("No data found for ").data ++ ("Temp").data ++ (" in range ").data
        ++ ("2024-01-01").data ++ (" to ").data ++ ("2024-01-03").data) ∧
    (handleDownload (some ⟨("Temp").data, ("2024-01-01").data, ("2024-01-03").data, .CSV⟩)
        ⟨.response 200 [] ⟨none⟩, .response 200 [] ⟨some []⟩, 0⟩).result =
      .error (("No data found for ").data ++ ("Temp").data ++ (" in range ").data
        ++ ("2024-01-01").data ++ (" to ").data ++ ("2024-01-03").data) ∧
    (handleDownload (some ⟨("Temp").data, ("2024-01-01").data, ("2024-01-03").data, .CSV⟩)
        ⟨.response 200 [] ⟨none⟩, .response 200 [] ⟨some []⟩, 0⟩).download = none :=
  handleDownload_no_datapoints _ _ [] 200 [] ⟨some []⟩ rfl rfl (by decide) rfl

/-- C3: whenever `handleDownload` issues the history fetch, the request
carries exactly the whole-day UTC bounds derived from the stored dates:
`starttime` is the begin date at `00:00:00.000Z` and `endtime` is the end date
at `23:59:59.999Z`, for the stored item. -/
theorem handleDownload_history_bounds (fd : ExportFormData) (env : Env) (r : HistoryRequest)
    (h : (handleDownload (some fd) env).historyRequest = some r) :
    r.itemName = fd.itemName ∧
    r.starttime = fd.beginDate ++ ("T00:00:00.000Z").data ∧
    r.endtime = fd.endDate ++ ("T23:59:59.999Z").data := by
  cases hfi : fetchItemUnit fd.itemName env.itemFetch with
  | error e =>
    simp [handleDownload, hfi] at h
  | ok u =>
    cases hfp : fetchPersistenceData fd.itemName fd.beginDate fd.endDate env.tz env.historyFetch with
    | error e =>
      simp [handleDownload, hfi, hfp] at h
      subst h
      exact ⟨rfl, rfl, rfl⟩
    | ok data =>
      cases hff : fd.fileFormat <;>
        · simp [handleDownload, hfi, hfp, hff] at h
          subst h
          exact ⟨rfl, rfl, rfl⟩

/-- Witness for C3: for begin date 2024-01-01 and end date 2024-01-03 the
issued history request carries exactly `starttime=2024-01-01T00:00:00.000Z`
and `endtime=2024-01-03T23:59:59.999Z`. -/
theorem handleDownload_history_bounds_witness :
    (handleDownload (some ⟨("Temp").data, ("2024-01-01").data, ("2024-01-03").data, .CSV⟩)
        ⟨.response 200 [] ⟨none⟩, .response 200 [] ⟨some []⟩, 0⟩).historyRequest =
      some ⟨("Temp").data, ("2024-01-01T00:00:00.000Z").data,
        ("2024-01-03T23:59:59.999Z").data⟩ ∧
    (("Temp").data = ("Temp").data ∧
      ("2024-01-01T00:00:00.000Z").data = ("2024-01-01").data ++ ("T00:00:00.000Z").data ∧
      ("2024-01-03T23:59:59.999Z").data = ("2024-01-03").data ++ ("T23:59:59.999Z").data) :=
  ⟨by decide,
    handleDownload_history_bounds
      ⟨("Temp").data, ("2024-01-01").data, ("2024-01-03").data, .CSV⟩
      ⟨.response 200 [] ⟨none⟩, .response 200 [] ⟨some []⟩, 0⟩
      ⟨("Temp").data, ("2024-01-01T00:00:00.000Z").data, ("2024-01-03T23:59:59.999Z").data⟩
      (by decide)⟩

/-- C10: invoking the download handler with no stored export parameters (none
were stored, or a restart cleared them) displays an error, returns a rejected
result, issues no network request and produces no file. -/
theorem handleDownload_without_form_data (env : Env) :
    (handleDownload none env).displayedError = some (("No export form data available!").data) ∧
    (handleDownload none env).result = .error (("No export form data available!").data) ∧
    (handleDownload none env).unitRequest = none ∧
    (handleDownload none env).historyRequest = none ∧
    (handleDownload none env).download = none ∧
    (∀ prev, handleDownload (handleRestartExportData prev) env = handleDownload none env) :=
  ⟨rfl, rfl, rfl, rfl, rfl, fun _ => rfl⟩


/-- C9: a submission whose begin date parses to an instant after its end date
is rejected at validation: the date-range field error is shown, the stored
export parameters are left untouched (the rejected request is never stored),
the wizard navigates back to the date step, and the submit handler issues no
network request. -/
theorem handleFormSubmit_rejects_inverted_range (st : SubmitState) (b e : List Char)
    (x y : Int)
    (hitem : jsTrim st.itemNameField ≠ [])
    (hrange : st.dateRangeField ≠ [])
    (hsplit : splitOnList ((" to ").data) st.dateRangeField = [b, e])
    (hb : parseDateYMD (jsTrim b) = some x)
    (he : parseDateYMD (jsTrim e) = some y)
    (hgt : y < x) :
    (handleFormSubmit st).fieldError =
      some ((("dateRange").data, ("Begin date must be before end date").data)) ∧
    (handleFormSubmit st).exportFormData = st.exportFormData ∧
    (handleFormSubmit st).step = 2 ∧
    (handleFormSubmit st).requests = [] := by
  have hgt2 : jsDateGT (parseDateYMD (jsTrim b)) (parseDateYMD (jsTrim e)) = true := by
    rw [hb, he]
    simp [jsDateGT, hgt]
  simp [handleFormSubmit, hitem, hrange, hsplit, hgt2, List.isEmpty_iff]

/-- Witness for C9 at a concrete inverted range. -/
theorem handleFormSubmit_rejects_inverted_range_witness :
    (handleFormSubmit ⟨("Temp").data, ("2024-01-03 to 2024-01-01").data, .CSV, none⟩).fieldError =
      some ((("dateRange").data, ("Begin date must be before end date").data)) ∧
    (handleFormSubmit ⟨("Temp").data, ("2024-01-03 to 2024-01-01").data, .CSV, none⟩).exportFormData
      = (⟨("Temp").data, ("2024-01-03 to 2024-01-01").data, .CSV, none⟩ : SubmitState).exportFormData ∧
    (handleFormSubmit ⟨("Temp").data, ("2024-01-03 to 2024-01-01").data, .CSV, none⟩).step = 2 ∧
    (handleFormSubmit ⟨("Temp").data, ("2024-01-03 to 2024-01-01").data, .CSV, none⟩).requests = [] :=
  handleFormSubmit_rejects_inverted_range
    ⟨("Temp").data, ("2024-01-03 to 2024-01-01").data, .CSV, none⟩
    (("2024-01-03").data) (("2024-01-01").data) 1704240000000 1704067200000
    (by decide) (by decide) (by decide) (by decide) (by decide) (by decide)


theorem intercalate_comma_five (a b c d e : List Char) :
    List.intercalate ((",").data) [a, b, c, d, e]
      = a ++ ',' :: (b ++ ',' :: (c ++ ',' :: (d ++ ',' :: e))) := by
  simp [List.intercalate, List.intersperse]

/-- C6: every successful CSV export downloads a file whose content is exactly
the header row `Item Name,UTC Time,Local Time,Value,Unit` followed by one row
per datapoint in backend order, each row carrying the escaped item name,
escaped UTC-ISO string, escaped local-ISO string, the raw value unescaped and
the escaped unit (empty when absent), all with LF line endings; the header
fields are themselves produced by escaping each header literal. -/
theorem handleDownload_csv_output (fd : ExportFormData) (env : Env) (u : List Char)
    (st : Nat) (stx : List Char) (dps : List DataPoint)
    (hff : fd.fileFormat = .CSV)
    (hu : fetchItemUnit fd.itemName env.itemFetch = .ok u)
    (hh : env.historyFetch = .response st stx ⟨some dps⟩)
    (hok : statusOk st = true)
    (hne : dps ≠ []) :
    (handleDownload (some fd) env).displayedError = none ∧
    (handleDownload (some fd) env).result = .ok () ∧
    (handleDownload (some fd) env).download =
      some ⟨fd.itemName ++ ('_' :: fd.beginDate) ++ ("_to_").data ++ fd.endDate,
        ("text/csv;charset=utf-8").data,
        ("Item Name,UTC Time,Local Time,Value,Unit\n").data ++
          (dps.map fun dp =>
            escapeCSVField (.str fd.itemName) ++ ',' ::
              (escapeCSVField (.str (toISOString dp.time)) ++ ',' ::
                (escapeCSVField (.str (formatLocalISO (jsDateFromMs dp.time env.tz))) ++ ',' ::
                  (dp.state ++ ',' ::
                    ((if u.isEmpty then [] else escapeCSVField (.str u))
                      ++ ('\n' :: [])))))).flatten⟩ ∧
    ("Item Name,UTC Time,Local Time,Value,Unit\n").data =
      List.intercalate ((",").data)
        ([("Item Name").data, ("UTC Time").data, ("Local Time").data, ("Value").data,
          ("Unit").data].map fun f => escapeCSVField (.str f)) ++ ("\n").data := by
  have hp : fetchPersistenceData fd.itemName fd.beginDate fd.endDate env.tz env.historyFetch
      = .ok (dps.map fun dp =>
          { item := fd.itemName, time := dp.time, utcIso := toISOString dp.time,
            localIso := formatLocalISO (jsDateFromMs dp.time env.tz), value := dp.state }) := by
    simp [fetchPersistenceData, hh, hok, List.isEmpty_iff, hne]
  refine ⟨?_, ?_, ?_, by decide⟩ <;>
    simp only [handleDownload, hu, hp, hff]
  simp only [Option.some.injEq, ExportResult.mk.injEq, true_and]
  rw [List.flatten_cons]
  congr 1
  rw [List.map_map]
  refine congrArg List.flatten (List.map_congr_left ?_)
  intro dp _
  simp only [Function.comp_apply]
  rw [intercalate_comma_five]
  simp [List.append_assoc]


set_option maxRecDepth 4000 in
/-- Witness for C6: a concrete export of two datapoints with unit `°C` in a
UTC+1 environment produces exactly the expected CSV bytes. -/
theorem handleDownload_csv_output_witness :
    (handleDownload (some ⟨("Temp").data, ("2024-01-01").data, ("2024-01-03").data, .CSV⟩)
        ⟨.response 200 [] ⟨some (("°C").data)⟩,
         .response 200 []
           ⟨some [⟨1704100000000, ("21.5").data⟩, ⟨1704200000000, ("22").data⟩]⟩,
         -60⟩).download =
      some ⟨("Temp_2024-01-01_to_2024-01-03").data, ("text/csv;charset=utf-8").data,
        ("Item Name,UTC Time,Local Time,Value,Unit\nTemp,2024-01-01T09:06:40.000Z,2024-01-01T10:06:40+01:00,21.5,°C\nTemp,2024-01-02T12:53:20.000Z,2024-01-02T13:53:20+01:00,22,°C\n").data⟩ :=
  ((handleDownload_csv_output
      ⟨("Temp").data, ("2024-01-01").data, ("2024-01-03").data, .CSV⟩
      ⟨.response 200 [] ⟨some (("°C").data)⟩,
       .response 200 []
         ⟨some [⟨1704100000000, ("21.5").data⟩, ⟨1704200000000, ("22").data⟩]⟩,
       -60⟩
      (("°C").data) 200 []
      [⟨1704100000000, ("21.5").data⟩, ⟨1704200000000, ("22").data⟩]
      rfl rfl rfl (by decide) (List.cons_ne_nil _ _)).2.2.1).trans (by decide)


theorem jsonStringify_data_elem (a b c d : List Char) :
    jsonIndent 2 ++ jsonStringifyVal 2
        (.obj [(("time").data, .str a), (("timeUtc").data, .str b),
               (("timeLocal").data, .str c), (("value").data, .str d)]) 2 =
      ("    \x7b\n      \"time\": ").data ++ jsonQuote a
        ++ (",\n      \"timeUtc\": ").data ++ jsonQuote b
        ++ (",\n      \"timeLocal\": ").data ++ jsonQuote c
        ++ (",\n      \"value\": ").data ++ jsonQuote d
        ++ ("\n    \x7d").data := by
  have k1 : jsonQuote (("time").data) = ("\"time\"").data := by decide
  have k2 : jsonQuote (("timeUtc").data) = ("\"timeUtc\"").data := by decide
  have k3 : jsonQuote (("timeLocal").data) = ("\"timeLocal\"").data := by decide
  have k4 : jsonQuote (("value").data) = ("\"value\"").data := by decide
  simp [jsonStringifyVal, jsonIndent, List.intercalate, List.intersperse,
    k1, k2, k3, k4, List.append_assoc]


/-- C7: every successful JSON export downloads a single pretty-printed object
with 2-space indentation and key order itemName, unit, beginDate, endDate,
datapoints, data; unit is null when the unit symbol is absent, datapoints is
the datapoint count, and every data element carries the keys time (the
instant, serialized by `JSON.stringify` through the `Date` `toJSON` hook as
its UTC-ISO string), timeUtc, timeLocal and value, in that order. -/
theorem handleDownload_json_output (fd : ExportFormData) (env : Env) (u : List Char)
    (st : Nat) (stx : List Char) (dps : List DataPoint)
    (hff : fd.fileFormat = .JSON)
    (hu : fetchItemUnit fd.itemName env.itemFetch = .ok u)
    (hh : env.historyFetch = .response st stx ⟨some dps⟩)
    (hok : statusOk st = true)
    (hne : dps ≠ []) :
    (handleDownload (some fd) env).displayedError = none ∧
    (handleDownload (some fd) env).result = .ok () ∧
    (handleDownload (some fd) env).download =
      some ⟨fd.itemName ++ ('_' :: fd.beginDate) ++ ("_to_").data ++ fd.endDate,
        ("application/json;charset=utf-8").data,
        ("\x7b\n  \"itemName\": ").data ++ jsonQuote fd.itemName
          ++ (",\n  \"unit\": ").data
          ++ (if u.isEmpty then ("null").data else jsonQuote u)
          ++ (",\n  \"beginDate\": ").data ++ jsonQuote fd.beginDate
          ++ (",\n  \"endDate\": ").data ++ jsonQuote fd.endDate
          ++ (",\n  \"datapoints\": ").data ++ natDigits dps.length
          ++ (",\n  \"data\": [\n").data
          ++ List.intercalate ((",\n").data) (dps.map fun dp =>
               ("    \x7b\n      \"time\": ").data ++ jsonQuote (toISOString dp.time)
                 ++ (",\n      \"timeUtc\": ").data ++ jsonQuote (toISOString dp.time)
                 ++ (",\n      \"timeLocal\": ").data
                 ++ jsonQuote (formatLocalISO (jsDateFromMs dp.time env.tz))
                 ++ (",\n      \"value\": ").data ++ jsonQuote dp.state
                 ++ ("\n    \x7d").data)
          ++ ("\n  ]\n\x7d").data⟩ := by
  have hp : fetchPersistenceData fd.itemName fd.beginDate fd.endDate env.tz env.historyFetch
      = .ok (dps.map fun dp =>
          { item := fd.itemName, time := dp.time, utcIso := toISOString dp.time,
            localIso := formatLocalISO (jsDateFromMs dp.time env.tz), value := dp.state }) := by
    simp [fetchPersistenceData, hh, hok, List.isEmpty_iff, hne]
  refine ⟨?_, ?_, ?_⟩ <;>
    simp only [handleDownload, hu, hp, hff]
  simp only [Option.some.injEq, ExportResult.mk.injEq, true_and]
  cases dps with
  | nil => exact absurd rfl hne
  | cons d0 rest =>
    have k1 : jsonQuote (("itemName").data) = ("\"itemName\"").data := by decide
    have k2 : jsonQuote (("unit").data) = ("\"unit\"").data := by decide
    have k3 : jsonQuote (("beginDate").data) = ("\"beginDate\"").data := by decide
    have k4 : jsonQuote (("endDate").data) = ("\"endDate\"").data := by decide
    have k5 : jsonQuote (("datapoints").data) = ("\"datapoints\"").data := by decide
    have k6 : jsonQuote (("data").data) = ("\"data\"").data := by decide
    have i0 : jsonIndent 0 = [] := by decide
    have i1 : jsonIndent 1 = ("  ").data := by decide
    have i2 : jsonIndent 2 = ("    ").data := by decide
    have i3 : jsonIndent 3 = ("      ").data := by decide
    have t1 : jsonQuote (("time").data) = ("\"time\"").data := by decide
    have t2 : jsonQuote (("timeUtc").data) = ("\"timeUtc\"").data := by decide
    have t3 : jsonQuote (("timeLocal").data) = ("\"timeLocal\"").data := by decide
    have t4 : jsonQuote (("value").data) = ("\"value\"").data := by decide
    by_cases hue : u.isEmpty
    · simp [jsonStringifyVal, List.intercalate, List.intersperse, List.map_cons, List.map_map,
        k1, k2, k3, k4, k5, k6, i0, i1, i2, i3, t1, t2, t3, t4, hue, Function.comp_def,
        List.append_assoc]
    · simp [jsonStringifyVal, List.intercalate, List.intersperse, List.map_cons, List.map_map,
        k1, k2, k3, k4, k5, k6, i0, i1, i2, i3, t1, t2, t3, t4, hue, Function.comp_def,
        List.append_assoc]


set_option maxRecDepth 8000 in
/-- Witness for C7: a concrete export of two datapoints with unit `°C` in a
UTC+1 environment produces exactly the expected pretty-printed JSON bytes. -/
theorem handleDownload_json_output_witness :
    (handleDownload (some ⟨("Temp").data, ("2024-01-01").data, ("2024-01-03").data, .JSON⟩)
        ⟨.response 200 [] ⟨some (("°C").data)⟩,
         .response 200 []
           ⟨some [⟨1704100000000, ("21.5").data⟩, ⟨1704200000000, ("22").data⟩]⟩,
         -60⟩).download =
      some ⟨("Temp_2024-01-01_to_2024-01-03").data, ("application/json;charset=utf-8").data,
        ("\x7b\n  \"itemName\": \"Temp\",\n  \"unit\": \"°C\",\n  \"beginDate\": \"2024-01-01\",\n  \"endDate\": \"2024-01-03\",\n  \"datapoints\": 2,\n  \"data\": [\n    \x7b\n      \"time\": \"2024-01-01T09:06:40.000Z\",\n      \"timeUtc\": \"2024-01-01T09:06:40.000Z\",\n      \"timeLocal\": \"2024-01-01T10:06:40+01:00\",\n      \"value\": \"21.5\"\n    \x7d,\n    \x7b\n      \"time\": \"2024-01-02T12:53:20.000Z\",\n      \"timeUtc\": \"2024-01-02T12:53:20.000Z\",\n      \"timeLocal\": \"2024-01-02T13:53:20+01:00\",\n      \"value\": \"22\"\n    \x7d\n  ]\n\x7d").data⟩ :=
  ((handleDownload_json_output
      ⟨("Temp").data, ("2024-01-01").data, ("2024-01-03").data, .JSON⟩
      ⟨.response 200 [] ⟨some (("°C").data)⟩,
       .response 200 []
         ⟨some [⟨1704100000000, ("21.5").data⟩, ⟨1704200000000, ("22").data⟩]⟩,
       -60⟩
      (("°C").data) 200 []
      [⟨1704100000000, ("21.5").data⟩, ⟨1704200000000, ("22").data⟩]
      rfl rfl rfl (by decide) (List.cons_ne_nil _ _)).2.2).trans (by decide)

end Openhab
